import Mathlib

/-!
Shallow embedding of `timezones/fields.py` (django-timezones).

The module defines two Django model fields:

* `TimeZoneField` — stores a timezone identifier as a bounded-length
  string and reconstructs a `pytz` timezone object on read;
* `LocalizedDateTimeField` with its access descriptor
  `LocalizedDateTimeFieldProperty` — stores a naive or aware datetime
  and, on each attribute read, lazily converts it into the field's
  timezone context, caching the converted result in the instance's
  `__dict__` until the stored value is reassigned.

The external timezone database (pytz) is modelled as a list of
`Timezone` records (name plus fixed UTC offset in minutes); `localize`
attaches a timezone to a naive datetime keeping the wall-clock value,
`astimezone` re-expresses an aware datetime preserving the absolute
instant, exactly as the pytz operations the source calls.  Fallible
Python operations are embedded in `Except PyErr`.
-/

namespace DjangoTimezones

/-- A pytz timezone object: identifier plus UTC offset in minutes. -/
structure Timezone where
  name : String
  offset : Int
  deriving DecidableEq, Repr

/-- A Python `datetime.datetime`: wall-clock value (minutes since an
epoch, as read on the clock face) and an optional attached timezone
(`tzinfo`); `tz = none` is a naive datetime. -/
structure Datetime where
  wall : Int
  tz : Option Timezone
  deriving DecidableEq, Repr

/-- The absolute instant an aware datetime denotes (UTC minutes);
`none` for a naive datetime, which denotes no particular instant. -/
def instant (d : Datetime) : Option Int :=
  d.tz.map (fun z => d.wall - z.offset)

/-- Python exceptions raised by the code paths embedded here. -/
inductive PyErr where
  | attributeError
  | typeError
  | valueError
  | unknownTimeZoneError
  deriving DecidableEq, Repr

/-- `pytz.timezone(s)` over a timezone database `db`: the first entry
whose identifier is `s`, `none` when the identifier is unknown (the
real call raises `UnknownTimeZoneError`; call sites wrap this). -/
def pytzTimezone (db : List Timezone) (s : String) : Option Timezone :=
  db.find? (fun z => z.name = s)

/-- `tz.localize(dt)`: attaches `z` to a naive datetime without
shifting the wall clock; raises `ValueError` on an aware datetime. -/
def pytzLocalize (z : Timezone) (d : Datetime) : Except PyErr Datetime :=
  match d.tz with
  | some _ => .error .valueError
  | none => .ok { wall := d.wall, tz := some z }

/-- `dt.astimezone(z)`: re-expresses an aware datetime in timezone `z`
preserving the absolute instant; raises `ValueError` on a naive
datetime (Python 2 semantics). -/
def dtAstimezone (d : Datetime) (z : Timezone) : Except PyErr Datetime :=
  match d.tz with
  | none => .error .valueError
  | some z0 => .ok { wall := d.wall - z0.offset + z.offset, tz := some z }

/-- A value held in a model instance's `__dict__` slot for the
datetime field: a datetime, `None`, or some other (non-datetime)
object.  The descriptor only inspects whether it is a datetime. -/
inductive PyVal where
  | pyDT (d : Datetime)
  | pyNone
  | pyOther
  deriving DecidableEq, Repr

/-- The per-instance state the descriptor touches: the stored field
value `obj.__dict__[field.name]` and the cache slot
`obj.__dict__['_<name>_cache']` (absent = `none`). -/
structure Obj where
  stored : PyVal
  cache : Option Datetime
  deriving DecidableEq, Repr

/-- The value a timezone context resolves to before the
string/object dispatch: a string, a timezone object, or `None`. -/
inductive TzVal where
  | str (s : String)
  | tz (z : Timezone)
  | pyNone

/-- `field.timezone` as configured: a plain value, a zero-argument
callable, or a one-argument callable receiving the model instance. -/
inductive TzContext where
  | val (v : TzVal)
  | fn0 (f : Unit → TzVal)
  | fn1 (f : Obj → TzVal)

/-- The callable-dispatch part of `__get__` (lines 72–84): invokes a
callable context with zero or one argument according to its arity and
returns the resulting value; a non-callable context is used as is. -/
def resolveCtx (o : Obj) (ctx : TzContext) : TzVal :=
  match ctx with
  | .val v => v
  | .fn0 f => f ()
  | .fn1 f => f o

/-- The string/object dispatch of `__get__` (lines 86–92): a string is
looked up with `pytz.timezone`, substituting the process-wide default
on `UnknownTimeZoneError`; any other value is used directly as
`tzinfo` (so a `None` context yields no timezone). -/
def resolveTzinfo (db : List Timezone) (dflt : Timezone) (v : TzVal) :
    Option Timezone :=
  match v with
  | .str s =>
    match pytzTimezone db s with
    | some z => some z
    | none => some dflt
  | .tz z => some z
  | .pyNone => none

/-- `LocalizedDateTimeFieldProperty.__get__`: if the cache slot is
present, return it; otherwise resolve the timezone context, pass a
non-datetime stored value through uncached, and for a datetime attach
the resolved timezone (localize if naive, convert if aware), store the
result in the cache slot and return it.  A `None` tzinfo makes
`tzinfo.localize` raise `AttributeError` (naive) or `astimezone(None)`
raise `TypeError` (aware). -/
def dtget (db : List Timezone) (dflt : Timezone) (ctx : TzContext)
    (o : Obj) : Except PyErr (PyVal × Obj) :=
  match o.cache with
  | some c => .ok (.pyDT c, o)
  | none =>
    match o.stored with
    | .pyDT d =>
      match resolveTzinfo db dflt (resolveCtx o ctx) with
      | none =>
        if d.tz = none then .error .attributeError else .error .typeError
      | some z =>
        (if d.tz = none then pytzLocalize z d else dtAstimezone d z).map
          (fun c => (.pyDT c, { o with cache := some c }))
    | s => .ok (s, o)

/-- `DateTimeField.to_python` of the host framework, as the descriptor
setter calls it: the identity on datetimes and `None` (string parsing
of the framework is outside this model's value space). -/
def dtFieldToPython (v : PyVal) : PyVal := v

/-- `LocalizedDateTimeFieldProperty.__set__`: normalizes the input,
overwrites the stored value and deletes any cached value. -/
def dtset (v : PyVal) (_o : Obj) : Obj :=
  { stored := dtFieldToPython v, cache := none }

/-- One descriptor operation on the attribute. -/
inductive Op where
  | read
  | write (v : PyVal)

/-- Applies one operation to the instance state; a read that raises
leaves the state unchanged (the exception propagates before the cache
slot would be written). -/
def stepOp (db : List Timezone) (dflt : Timezone) (ctx : TzContext)
    (o : Obj) : Op → Obj
  | .write v => dtset v o
  | .read =>
    match dtget db dflt ctx o with
    | .ok (_, o1) => o1
    | .error _ => o

/-- Runs a sequence of descriptor operations. -/
def runOps (db : List Timezone) (dflt : Timezone) (ctx : TzContext)
    (o : Obj) (ops : List Op) : Obj :=
  ops.foldl (stepOp db dflt ctx) o

/-- Cache consistency: whenever the cache slot is present, the cached
value is exactly what a fresh read of the current stored value (with
the cache cleared) would compute and cache — in particular the cache
is the localization of the current stored timestamp, never of an
earlier one. -/
def cacheInv (db : List Timezone) (dflt : Timezone) (ctx : TzContext)
    (o : Obj) : Prop :=
  ∀ c, o.cache = some c →
    dtget db dflt ctx { stored := o.stored, cache := none } =
      .ok (.pyDT c, { stored := o.stored, cache := some c })

/-- `LocalizedDateTimeField.__init__` (timezone handling): a string
argument naming a known timezone is replaced by the timezone object;
anything else (unknown string, timezone object, callable, `None`) is
kept as supplied. -/
def ldtfInit (db : List Timezone) (arg : TzContext) : TzContext :=
  match arg with
  | .val (.str s) =>
    match pytzTimezone db s with
    | some z => .val (.tz z)
    | none => .val (.str s)
  | x => x

/-- `LocalizedDateTimeField.get_db_prep_save`: a non-`None` value is
converted into the process-wide default timezone — localized if naive,
converted if aware — before being handed to the superclass; `None`
passes through. -/
def ldtfGetDbPrepSave (dflt : Timezone) (value : Option Datetime) :
    Except PyErr (Option Datetime) :=
  match value with
  | none => .ok none
  | some v =>
    (if v.tz = none then pytzLocalize dflt v else dtAstimezone v dflt).map
      some

/-- `LocalizedDateTimeField.get_db_prep_lookup`: same conversion as
save preparation, but the code accesses `value.tzinfo` without a
`None` guard, so a `None` value raises `AttributeError`. -/
def ldtfGetDbPrepLookup (dflt : Timezone) (_lookupType : String)
    (value : Option Datetime) : Except PyErr (Option Datetime) :=
  match value with
  | none => .error .attributeError
  | some v =>
    (if v.tz = none then pytzLocalize dflt v else dtAstimezone v dflt).map
      some

/-- `smart_unicode` applied to a pytz timezone object: its string
form is the zone identifier. -/
def smartUnicode (z : Timezone) : String := z.name

/-- `TimeZoneField.to_python`: `None` passes through (`null=True`);
any other (string) value is reconstructed with `pytz.timezone`, which
raises `UnknownTimeZoneError` on an unknown identifier. -/
def tzToPython (db : List Timezone) (value : Option String) :
    Except PyErr (Option Timezone) :=
  match value with
  | none => .ok none
  | some s =>
    match pytzTimezone db s with
    | some z => .ok (some z)
    | none => .error .unknownTimeZoneError

/-- `TimeZoneField.get_db_prep_save`: casts a non-`None` timezone
object into its string form for entry into the database. -/
def tzGetDbPrepSave (value : Option Timezone) : Option String :=
  value.map smartUnicode

/-- `MAX_TIMEZONE_LENGTH` with its default from settings. -/
def maxTimezoneLength : Nat := 100

/-- A Python object as far as the module-level `assert` needs:
booleans, strings and tuples, with Python truthiness. -/
inductive PyObj where
  | bool (b : Bool)
  | str (s : String)
  | tuple (elems : List PyObj)

/-- Python truthiness: `False`, the empty string and the empty tuple
are falsy; everything else here is truthy. -/
def pyTruthy : PyObj → Bool
  | .bool b => b
  | .str s => !s.isEmpty
  | .tuple es => !es.isEmpty

/-- The `reduce(lambda x, y: x and (len(y) <= MAX_TIMEZONE_LENGTH),
choices, True)` expression: left fold of conjunction of the length
bound over the identifier list. -/
def lenOk (m : Nat) (ids : List String) : Bool :=
  ids.foldl (fun x y => x && decide (y.length ≤ m)) true

/-- The single argument of the module-level `assert` (lines 16–18):
because the intended condition and message are wrapped in one pair of
parentheses, the assert receives a two-element tuple, not the reduce
result. -/
def moduleAssertArg (m : Nat) (ids : List String) : PyObj :=
  .tuple [.bool (lenOk m ids),
          .str "timezones.fields.TimeZoneField MAX_TIMEZONE_LENGTH is too small"]

/-- Whether the module-level `assert` passes: Python asserts succeed
exactly when the tested object is truthy. -/
def assertPasses (m : Nat) (ids : List String) : Bool :=
  pyTruthy (moduleAssertArg m ids)

/-- Sample timezone database entries for concrete witnesses. -/
def utc : Timezone := { name := "UTC", offset := 0 }

def newYork : Timezone := { name := "America/New_York", offset := -240 }

def tokyo : Timezone := { name := "Asia/Tokyo", offset := 540 }

def sampleDb : List Timezone := [utc, newYork, tokyo]

/-- Concrete naive noon for witnesses (minutes on the wall clock). -/
def noonNaive : Datetime := { wall := 720, tz := none }

/-- The same noon localized to America/New_York. -/
def noonNY : Datetime := { wall := 720, tz := some newYork }

/-- An instance holding naive noon with an empty cache slot. -/
def objNoon : Obj := { stored := .pyDT noonNaive, cache := none }

/-- The state after a first read of `objNoon` under America/New_York. -/
def objNoonCached : Obj := { stored := .pyDT noonNaive, cache := some noonNY }

/-! ## Theorems -/

/-- C9: the module-level assertion's argument is a two-element tuple
(the reduce expression and the message wrapped in one pair of
parentheses), which is truthy regardless of `MAX_TIMEZONE_LENGTH` and
the identifier list — the assertion can never fail, even when the
length bound is smaller than the longest identifier. -/
theorem moduleAssert_never_fails :
    (∀ (m : Nat) (ids : List String), assertPasses m ids = true) ∧
    lenOk 0 ["America/New_York"] = false ∧
    assertPasses 0 ["America/New_York"] = true := by
  refine ⟨fun m ids => rfl, by decide, rfl⟩

/-- C5: save preparation of a non-`None` datetime always hands on a
value expressed in the process-wide reference timezone: a naive value
is localized (wall clock kept), an aware value is converted (absolute
instant kept). -/
theorem getDbPrepSave_normalizes (dflt : Timezone) (d : Datetime) :
    ∃ r, ldtfGetDbPrepSave dflt (some d) = .ok (some r) ∧
      r.tz = some dflt ∧
      (d.tz = none → r.wall = d.wall) ∧
      (d.tz ≠ none → instant r = instant d) := by
  rcases hd : d.tz with _ | z0
  · refine ⟨{ wall := d.wall, tz := some dflt }, ?_, rfl, fun _ => rfl, ?_⟩
    · simp [ldtfGetDbPrepSave, pytzLocalize, hd, Except.map]
    · intro hcon; simp [hd] at hcon
  · refine ⟨{ wall := d.wall - z0.offset + dflt.offset, tz := some dflt },
      ?_, rfl, ?_, ?_⟩
    · simp [ldtfGetDbPrepSave, dtAstimezone, hd, Except.map]
    · intro hcon; simp [hd] at hcon
    · intro _; simp [instant, hd]

/-- C5 witness at a concrete aware datetime. -/
theorem getDbPrepSave_normalizes_witness :
    ∃ r, ldtfGetDbPrepSave utc
        (some { wall := 720, tz := some newYork }) = .ok (some r) ∧
      r.tz = some utc ∧
      (({ wall := 720, tz := some newYork } : Datetime).tz = none →
        r.wall = 720) ∧
      (({ wall := 720, tz := some newYork } : Datetime).tz ≠ none →
        instant r = instant { wall := 720, tz := some newYork }) :=
  getDbPrepSave_normalizes utc { wall := 720, tz := some newYork }

/-- C6 counterexample: on the absent (`None`) value the two
preparations disagree — save preparation passes `None` through while
lookup preparation raises `AttributeError` from `value.tzinfo`. -/
theorem prepLookup_ne_prepSave_on_none :
    ldtfGetDbPrepLookup utc "exact" none = .error .attributeError ∧
    ldtfGetDbPrepSave utc none = .ok none ∧
    ldtfGetDbPrepLookup utc "exact" none ≠ ldtfGetDbPrepSave utc none :=
  ⟨rfl, rfl, fun h => Except.noConfusion h⟩

/-- C6 amended: lookup preparation agrees with save preparation on
every non-`None` datetime value, for every lookup type. -/
theorem prepLookup_eq_prepSave_on_some (dflt : Timezone) (lt : String)
    (d : Datetime) :
    ldtfGetDbPrepLookup dflt lt (some d) = ldtfGetDbPrepSave dflt (some d) :=
  rfl

/-- C7: a timezone object named by a valid identifier round-trips
through the identifier field — serializing it to its canonical string
and reconstructing with `to_python` returns the same timezone. -/
theorem tzField_roundtrip (db : List Timezone) (ident : String)
    (z : Timezone) (h : pytzTimezone db ident = some z) :
    tzToPython db (tzGetDbPrepSave (some z)) = .ok (some z) := by
  have hmem := List.find?_some h
  have hname : z.name = ident := by simpa using hmem
  show tzToPython db (some (smartUnicode z)) = .ok (some z)
  simp only [tzToPython, smartUnicode]
  rw [hname, h]

/-- C7 witness: the round trip at the identifier "Asia/Tokyo". -/
theorem tzField_roundtrip_witness :
    pytzTimezone sampleDb "Asia/Tokyo" = some tokyo ∧
    tzToPython sampleDb (tzGetDbPrepSave (some tokyo)) = .ok (some tokyo) :=
  ⟨by decide, tzField_roundtrip sampleDb "Asia/Tokyo" tokyo (by decide)⟩

/-- C8 counterexample: a string well within `MAX_TIMEZONE_LENGTH` that
is not a known identifier does raise a membership error on read-back —
`to_python` propagates `UnknownTimeZoneError` from the library lookup,
so fitting the bounded length does not make read-back error-free. -/
theorem tzToPython_raises_within_length :
    "No/Such_Zone".length ≤ maxTimezoneLength ∧
    tzToPython sampleDb (some "No/Such_Zone") = .error .unknownTimeZoneError :=
  ⟨by decide, rfl⟩

/-- C8 amended: the field's own code performs no membership check, but
read-back delegates to the library lookup: a stored string reads back
without error exactly when it is a known identifier, and an unknown
string raises `UnknownTimeZoneError` regardless of its length. -/
theorem tzToPython_membership_via_library (db : List Timezone) (s : String) :
    (∀ z, pytzTimezone db s = some z → tzToPython db (some s) = .ok (some z)) ∧
    (pytzTimezone db s = none →
      tzToPython db (some s) = .error .unknownTimeZoneError) := by
  constructor
  · intro z hz; simp [tzToPython, hz]
  · intro hz; simp [tzToPython, hz]

/-- C8 amended witness at a known and at an unknown identifier. -/
theorem tzToPython_membership_via_library_witness :
    tzToPython sampleDb (some "UTC") = .ok (some utc) ∧
    tzToPython sampleDb (some "Mars/Phobos") = .error .unknownTimeZoneError :=
  ⟨(tzToPython_membership_via_library sampleDb "UTC").1 utc (by decide),
   (tzToPython_membership_via_library sampleDb "Mars/Phobos").2 (by decide)⟩

/-- C1: a descriptor read on an instance with an empty cache slot and
a stored datetime returns the stored datetime attached to the resolved
timezone — same wall clock if the stored value was naive, same
absolute instant if it was aware — and stores the result in the cache
slot. -/
theorem descriptorRead_localizes (db : List Timezone) (dflt : Timezone)
    (ctx : TzContext) (o : Obj) (d : Datetime) (z : Timezone)
    (h1 : o.cache = none) (h2 : o.stored = .pyDT d)
    (h3 : resolveTzinfo db dflt (resolveCtx o ctx) = some z) :
    ∃ c, dtget db dflt ctx o = .ok (.pyDT c, { o with cache := some c }) ∧
      c.tz = some z ∧
      (d.tz = none → c.wall = d.wall) ∧
      (d.tz ≠ none → instant c = instant d) := by
  obtain ⟨st, ca⟩ := o
  dsimp only at h1 h2
  subst h1; subst h2
  rcases hd : d.tz with _ | z0
  · refine ⟨{ wall := d.wall, tz := some z }, ?_, rfl, fun _ => rfl, ?_⟩
    · simp [dtget, h3, hd, pytzLocalize, Except.map]
    · intro hcon; simp [hd] at hcon
  · refine ⟨{ wall := d.wall - z0.offset + z.offset, tz := some z },
      ?_, rfl, ?_, ?_⟩
    · simp [dtget, h3, hd, dtAstimezone, Except.map]
    · intro hcon; simp [hd] at hcon
    · intro _; simp [instant, hd]

/-- C1 witness: a naive noon read under the America/New_York context. -/
theorem descriptorRead_localizes_witness :
    ∃ c, dtget sampleDb utc (.val (.tz newYork)) objNoon =
        .ok (.pyDT c, { objNoon with cache := some c }) ∧
      c.tz = some newYork ∧
      (noonNaive.tz = none → c.wall = noonNaive.wall) ∧
      (noonNaive.tz ≠ none → instant c = instant noonNaive) :=
  descriptorRead_localizes sampleDb utc (.val (.tz newYork)) objNoon
    noonNaive newYork rfl rfl rfl

/-- C4: a textual timezone context naming no known identifier
resolves to the process-wide default, and the read completes without
raising. -/
theorem unknownTz_falls_back (db : List Timezone) (dflt : Timezone)
    (ctx : TzContext) (o : Obj) (s : String)
    (hunk : pytzTimezone db s = none)
    (hctx : resolveCtx o ctx = .str s) :
    resolveTzinfo db dflt (resolveCtx o ctx) = some dflt ∧
    ∃ r, dtget db dflt ctx o = .ok r := by
  obtain ⟨st, ca⟩ := o
  have hres : resolveTzinfo db dflt (resolveCtx ⟨st, ca⟩ ctx) = some dflt := by
    rw [hctx]; simp [resolveTzinfo, hunk]
  refine ⟨hres, ?_⟩
  rcases ca with _ | c
  · rcases st with d | _ | _
    · rcases hd : d.tz with _ | z0
      · exact ⟨(.pyDT { wall := d.wall, tz := some dflt },
          { stored := .pyDT d, cache := some { wall := d.wall, tz := some dflt } }),
          by simp [dtget, hres, hd, pytzLocalize, Except.map]⟩
      · exact ⟨(.pyDT { wall := d.wall - z0.offset + dflt.offset, tz := some dflt },
          { stored := .pyDT d,
            cache := some { wall := d.wall - z0.offset + dflt.offset,
                            tz := some dflt } }),
          by simp [dtget, hres, hd, dtAstimezone, Except.map]⟩
    · exact ⟨(.pyNone, { stored := .pyNone, cache := none }), rfl⟩
    · exact ⟨(.pyOther, { stored := .pyOther, cache := none }), rfl⟩
  · exact ⟨(.pyDT c, { stored := st, cache := some c }), rfl⟩

/-- C4 witness: the unknown identifier "Atlantis/Central". -/
theorem unknownTz_falls_back_witness :
    resolveTzinfo sampleDb utc
      (resolveCtx { stored := .pyDT { wall := 600, tz := none }, cache := none }
        (.val (.str "Atlantis/Central"))) = some utc ∧
    ∃ r, dtget sampleDb utc (.val (.str "Atlantis/Central"))
        { stored := .pyDT { wall := 600, tz := none }, cache := none } =
        .ok r :=
  unknownTz_falls_back sampleDb utc (.val (.str "Atlantis/Central"))
    { stored := .pyDT { wall := 600, tz := none }, cache := none }
    "Atlantis/Central" (by decide) rfl

/-- C10: a field constructed with the default `timezone=None` keeps
`None` as its context; `None` is not substituted by the default
timezone, and an uncached read of a stored datetime raises —
`AttributeError` from `None.localize` on a naive value, `TypeError`
from `astimezone(None)` on an aware one. -/
theorem noneTz_read_raises (db : List Timezone) (dflt : Timezone)
    (o : Obj) (d : Datetime)
    (h1 : o.cache = none) (h2 : o.stored = .pyDT d) :
    resolveTzinfo db dflt .pyNone = none ∧
    dtget db dflt (ldtfInit db (.val .pyNone)) o =
      .error (if d.tz = none then .attributeError else .typeError) := by
  obtain ⟨st, ca⟩ := o
  dsimp only at h1 h2
  subst h1; subst h2
  refine ⟨rfl, ?_⟩
  rcases hd : d.tz with _ | z0 <;>
    simp [dtget, ldtfInit, resolveCtx, resolveTzinfo, hd]

/-- C10 witness: a naive stored datetime under the `None` context. -/
theorem noneTz_read_raises_witness :
    resolveTzinfo sampleDb utc .pyNone = none ∧
    dtget sampleDb utc (ldtfInit sampleDb (.val .pyNone))
      { stored := .pyDT { wall := 300, tz := none }, cache := none } =
      .error (if ({ wall := 300, tz := none } : Datetime).tz = none
              then .attributeError else .typeError) :=
  noneTz_read_raises sampleDb utc
    { stored := .pyDT { wall := 300, tz := none }, cache := none }
    { wall := 300, tz := none } rfl rfl

/-- Helper: one descriptor operation preserves cache consistency. -/
theorem cacheInv_stepOp (db : List Timezone) (dflt : Timezone)
    (ctx : TzContext) (o : Obj) (op : Op)
    (h : cacheInv db dflt ctx o) :
    cacheInv db dflt ctx (stepOp db dflt ctx o op) := by
  obtain ⟨st, ca⟩ := o
  cases op with
  | write v => exact fun _ hc => Option.noConfusion hc
  | read =>
    rcases ca with _ | c0
    · rcases st with d | _ | _
      · rcases ht : resolveTzinfo db dflt
            (resolveCtx ⟨.pyDT d, none⟩ ctx) with _ | z
        · intro c hc
          rcases hd : d.tz with _ | z0 <;>
            simp [stepOp, dtget, ht, hd] at hc
        · rcases hd : d.tz with _ | z0
          · intro c hc
            simp [stepOp, dtget, ht, hd, pytzLocalize, Except.map] at hc
            simp [stepOp, dtget, ht, hd, pytzLocalize, Except.map, hc]
          · intro c hc
            simp [stepOp, dtget, ht, hd, dtAstimezone, Except.map] at hc
            simp [stepOp, dtget, ht, hd, dtAstimezone, Except.map, hc]
      · exact fun _ hc => Option.noConfusion hc
      · exact fun _ hc => Option.noConfusion hc
    · exact h

/-- Helper: a whole operation sequence preserves cache consistency. -/
theorem cacheInv_runOps (db : List Timezone) (dflt : Timezone)
    (ctx : TzContext) (o : Obj) (ops : List Op)
    (h : cacheInv db dflt ctx o) :
    cacheInv db dflt ctx (runOps db dflt ctx o ops) := by
  induction ops generalizing o with
  | nil => exact h
  | cons op rest ih => exact ih (stepOp db dflt ctx o op) (cacheInv_stepOp db dflt ctx o op h)

/-- C2: every write leaves the cache slot empty, and along any
sequence of descriptor reads and writes the cache, when present, is
always exactly the localization of the current stored timestamp (what
a fresh read of the current stored value would compute), never a value
computed from an earlier stored timestamp. -/
theorem write_clears_cache_and_inv (db : List Timezone) (dflt : Timezone)
    (ctx : TzContext) (v : PyVal) (o : Obj) (ops : List Op)
    (h : cacheInv db dflt ctx o) :
    (dtset v o).cache = none ∧
    cacheInv db dflt ctx (runOps db dflt ctx o ops) :=
  ⟨rfl, cacheInv_runOps db dflt ctx o ops h⟩

/-- C2 witness: a fresh instance, then a write followed by a read. -/
theorem write_clears_cache_and_inv_witness :
    (dtset (.pyDT { wall := 0, tz := none })
        { stored := .pyNone, cache := none }).cache = none ∧
    cacheInv sampleDb utc (.val (.tz tokyo))
      (runOps sampleDb utc (.val (.tz tokyo))
        { stored := .pyNone, cache := none }
        [.write (.pyDT { wall := 0, tz := none }), .read]) :=
  write_clears_cache_and_inv sampleDb utc (.val (.tz tokyo))
    (.pyDT { wall := 0, tz := none }) { stored := .pyNone, cache := none }
    [.write (.pyDT { wall := 0, tz := none }), .read]
    (fun _ hc => Option.noConfusion hc)

/-- C3: after a successful read of a stored datetime, the cache slot
holds the returned value, and a second read with no intervening write
returns the identical value and state — without recomputation: the
result no longer depends on the timezone database, default timezone or
context at all. -/
theorem read_read_idempotent (db : List Timezone) (dflt : Timezone)
    (ctx : TzContext) (o o1 : Obj) (d : Datetime) (v : PyVal)
    (h1 : o.stored = .pyDT d)
    (h2 : dtget db dflt ctx o = .ok (v, o1)) :
    (∃ c, o1.cache = some c ∧ v = .pyDT c) ∧
    ∀ (db2 : List Timezone) (dflt2 : Timezone) (ctx2 : TzContext),
      dtget db2 dflt2 ctx2 o1 = .ok (v, o1) := by
  obtain ⟨st, ca⟩ := o
  dsimp only at h1
  subst h1
  rcases ca with _ | c0
  · rcases ht : resolveTzinfo db dflt
        (resolveCtx ⟨.pyDT d, none⟩ ctx) with _ | z
    · rcases hd : d.tz with _ | z0 <;> simp [dtget, ht, hd] at h2
    · rcases hd : d.tz with _ | z0
      · simp [dtget, ht, hd, pytzLocalize, Except.map] at h2
        obtain ⟨rfl, rfl⟩ := h2
        exact ⟨⟨{ wall := d.wall, tz := some z }, rfl, rfl⟩,
          fun _ _ _ => rfl⟩
      · simp [dtget, ht, hd, dtAstimezone, Except.map] at h2
        obtain ⟨rfl, rfl⟩ := h2
        exact ⟨⟨{ wall := d.wall - z0.offset + z.offset, tz := some z },
          rfl, rfl⟩, fun _ _ _ => rfl⟩
  · simp [dtget] at h2
    obtain ⟨rfl, rfl⟩ := h2
    exact ⟨⟨c0, rfl, rfl⟩, fun _ _ _ => rfl⟩

/-- C3 witness: the state produced by a first read of a naive noon
under the America/New_York context. -/
theorem read_read_idempotent_witness :
    (∃ c, objNoonCached.cache = some c ∧ PyVal.pyDT noonNY = .pyDT c) ∧
    ∀ (db2 : List Timezone) (dflt2 : Timezone) (ctx2 : TzContext),
      dtget db2 dflt2 ctx2 objNoonCached = .ok (.pyDT noonNY, objNoonCached) :=
  read_read_idempotent sampleDb utc (.val (.tz newYork)) objNoon
    objNoonCached noonNaive (.pyDT noonNY) rfl rfl

end DjangoTimezones
